import Mathlib

/-!
Shallow embedding of `src/main.py` of the scooter-center-scraper repository.

The web is modelled as an oracle `Web := Nat → String → Option Soup`: the
`Nat` argument is the index of the HTTP request within the run (the site may
answer differently on different requests, e.g. a page that succeeded for the
validity probe may fail on the next fetch), `none` models a request that
raises `requests.exceptions.RequestException` (handled inside `get_soup`,
which logs and returns Python `None`).

A `Soup` carries exactly the parse results the scraper reads: the
`div.product--box box--minimal` elements, the `span.paging--display`
pagination marker, and the five product-detail markers.  Text fields hold
the already-stripped text (`get_text(strip=True)`).

Python exceptions that the code can actually raise (unhandled) are modelled
with `Except PyError`; each function additionally returns the list of URLs
it fetched, in request order, so that fetch counts can be stated.
-/

set_option autoImplicit false

namespace ScooterScraper

/-- Kinds of (unhandled) Python exceptions the scraper can raise. -/
inductive PyError where
  | typeError
  | keyError
  | valueError
  | attributeError
  | indexError
  deriving DecidableEq, Repr

/-- The `a.product--title` anchor inside a product box; `href` is `none`
when the anchor has no `href` attribute (subscripting it raises KeyError). -/
structure AnchorTag where
  href : Option String
  deriving DecidableEq, Repr

/-- One `div.product--box box--minimal` element of a listing page.
`titleAnchor` is `none` when the box has no `a.product--title` child
(`find` returns Python `None`, and `None["href"]` raises TypeError). -/
structure ProductBox where
  titleAnchor : Option AnchorTag
  deriving DecidableEq, Repr

/-- The `span.paging--display` pagination marker.  `strongText` is the
stripped-less raw text of its `strong` child, `none` when there is no
`strong` child (`.text` on Python `None` raises AttributeError). -/
structure PagingDisplay where
  strongText : Option String
  deriving DecidableEq, Repr

/-- Parse result of one fetched page, restricted to the markers the scraper
reads.  `priceMeta` is `none` when there is no `meta[itemprop=price]` tag,
`some none` when the tag exists but has no `content` attribute (subscripting
raises KeyError), `some (some c)` when `content` is `c`.  `thumbnailImgs`
holds, per `img` matched by the thumbnail selector, its `srcset` attribute
when present (`has_attr` guards the subscript in the code). -/
structure Soup where
  productBoxes : List ProductBox
  pagingDisplay : Option PagingDisplay
  productTitle : Option String
  skuSpan : Option String
  priceMeta : Option (Option String)
  productDescription : Option String
  thumbnailImgs : List (Option String)
  deriving DecidableEq, Repr

/-- The web oracle: request index ↦ URL ↦ parsed page, `none` on any
network error or non-success HTTP status (absorbed by `get_soup`). -/
abbrev Web := Nat → String → Option Soup

/-- `BASE_URL` of `main.py`. -/
def BASE_URL : String := "https://www.scooter-center.com"

/-- Digits-only numeral reader used by the model of Python `int`. -/
def readDigitsAux : Nat → List Char → Option Nat
  | acc, [] => some acc
  | acc, c :: cs =>
    if c.isDigit then readDigitsAux (acc * 10 + (c.toNat - 48)) cs else none

/-- Reads a non-empty all-digit character list as a number. -/
def readDigits : List Char → Option Nat
  | [] => none
  | cs => readDigitsAux 0 cs

/-- Whitespace stripping at both ends, as Python `int()` applies to its
string argument before parsing. -/
def pyStrip (s : String) : List Char :=
  ((s.data.dropWhile Char.isWhitespace).reverse.dropWhile Char.isWhitespace).reverse

/-- The decimal digit character for `n < 10`. -/
def digitChar (n : Nat) : Char := Char.ofNat (48 + n)

/-- Decimal digits of `n`, most significant first (`fuel`-bounded; called
with `fuel = n`, enough since `n / 10 < n` for `n > 0`). -/
def natDigitsAux : Nat → Nat → List Char
  | _, 0 => []
  | 0, _ => []
  | fuel + 1, n => natDigitsAux fuel (n / 10) ++ [digitChar (n % 10)]

/-- Decimal rendering of a natural number, as Python `str`/f-strings do. -/
def natToStr (n : Nat) : String :=
  match n with
  | 0 => "0"
  | _ => ⟨natDigitsAux n n⟩

/-- Decimal rendering of an integer, as a Python f-string renders an `int`. -/
def intToStr (i : Int) : String :=
  match i with
  | .ofNat n => natToStr n
  | .negSucc m => "-" ++ natToStr (m + 1)

/-- Model of Python `int(s)` on a string: surrounding whitespace is ignored,
an optional sign precedes a non-empty digit run; anything else raises
`ValueError`.  (Python's full numeral grammar also allows underscores
between digits; no theorem below depends on those inputs.) -/
def pyInt (s : String) : Except PyError Int :=
  match pyStrip s with
  | '-' :: rest =>
    match readDigits rest with
    | some n => .ok (-(n : Int))
    | none => .error .valueError
  | '+' :: rest =>
    match readDigits rest with
    | some n => .ok (n : Int)
    | none => .error .valueError
  | cs =>
    match readDigits cs with
    | some n => .ok (n : Int)
    | none => .error .valueError

/-- `is_valid_link` (main.py 28-40): fetch the URL (one request, at index
`k`) and report whether the page parses to at least one product box; a
failed fetch yields `false`. -/
def is_valid_link (w : Web) (k : Nat) (url : String) : Bool :=
  match w k url with
  | none => false
  | some soup => decide (0 < soup.productBoxes.length)

/-- `get_total_pages` (main.py 42-48): if the `span.paging--display` marker
is present, return `int` of its `strong` child's text (AttributeError when
there is no `strong` child, ValueError when the text is not a numeral);
otherwise return 1. -/
def get_total_pages (soup : Soup) : Except PyError Int :=
  match soup.pagingDisplay with
  | some pd =>
    match pd.strongText with
    | some t => pyInt t
    | none => .error .attributeError
  | none => .ok 1

/-- The listing-page URL template of `scrape_category` (main.py 57, 66):
`f"{category_url}?p={page}&followSearch=9850&o=1&n=120"`. -/
def listingPageUrl (category_url : String) (page : Int) : String :=
  category_url ++ "?p=" ++ intToStr page ++ "&followSearch=9850&o=1&n=120"

/-- The search listing-page URL template of `search_products` (main.py 93,
109): `f"{BASE_URL}/en/search?p={page}&followSearch=9998&q={q}&o=7&n=120"`. -/
def searchListingUrl (q : String) (page : Int) : String :=
  BASE_URL ++ "/en/search?p=" ++ intToStr page ++ "&followSearch=9998&q=" ++ q
    ++ "&o=7&n=120"

/-- Link extraction of the inner `for product in product_containers` loop
(main.py 76-78 and 119-121): `product.find("a", class_="product--title")["href"]`,
which raises TypeError when the anchor is missing and KeyError when the
anchor has no `href` attribute. -/
def extractBoxLinks : List ProductBox → Except PyError (List String)
  | [] => .ok []
  | b :: bs =>
    match b.titleAnchor with
    | none => .error .typeError
    | some a =>
      match a.href with
      | none => .error .keyError
      | some h => (extractBoxLinks bs).map (h :: ·)

/-- The `while page <= total_pages` listing loop shared by `scrape_category`
(main.py 64-79) and `search_products` (main.py 107-122): starting at request
index `k` and page number `page`, with `fuel` remaining loop iterations
(`fuel = total_pages.toNat` at entry, so the loop runs for pages
`1 .. total_pages`), fetch each page, break on fetch failure or on zero
product boxes, and append every box's detail link.  Returns the collected
links (or the uncaught exception) and the list of fetched URLs. -/
def collectLinks (w : Web) (mkUrl : Int → String) :
    Nat → Int → Nat → Except PyError (List String) × List String
  | _, _, 0 => (.ok [], [])
  | k, page, fuel + 1 =>
    let url := mkUrl page
    match w k url with
    | none => (.ok [], [url])
    | some soup =>
      if soup.productBoxes.isEmpty then (.ok [], [url])
      else
        match extractBoxLinks soup.productBoxes with
        | .error e => (.error e, [url])
        | .ok links =>
          let rest := collectLinks w mkUrl (k + 1) (page + 1) fuel
          (rest.1.map (links ++ ·), url :: rest.2)

/-- A product record as built by `scrape_product` (main.py 164-170).  The
field `desciption` keeps the source's misspelled dict key `"Desciption"`. -/
structure ProductRecord where
  title : String
  partNumber : String
  price : String
  desciption : String
  image : String
  deriving DecidableEq, Repr

/-- The (ordered) key/value pairs of the Python dict returned by
`scrape_product` (main.py 164-170). -/
def recordPairs (r : ProductRecord) : List (String × String) :=
  [("Title", r.title), ("Part Number", r.partNumber), ("Price", r.price),
   ("Desciption", r.desciption), ("Image", r.image)]

/-- `scrape_product` (main.py 134-170): fetch the product page (one request,
at index `k`); on fetch failure return Python `None`; otherwise each field
defaults to `""` when its marker is missing, except that a present
`meta[itemprop=price]` tag without a `content` attribute raises KeyError
(`price_meta["content"]`).  The image is the first `srcset` among the
thumbnail images carrying one, else `""`. -/
def scrape_product (w : Web) (k : Nat) (product_url : String) :
    Except PyError (Option ProductRecord) × List String :=
  match w k product_url with
  | none => (.ok none, [product_url])
  | some soup =>
    match soup.priceMeta with
    | some none => (.error .keyError, [product_url])
    | pm =>
      (.ok (some
        { title := soup.productTitle.getD ""
          partNumber := soup.skuSpan.getD ""
          price := ((pm.getD none).getD "")
          desciption := soup.productDescription.getD ""
          image := (soup.thumbnailImgs.filterMap id).headD "" }),
       [product_url])

/-- The `for link in progress_bar` extraction loop shared by
`scrape_category` (main.py 84-87) and `search_products` (main.py 127-130):
invoke `scrape_product` on each collected link in order (one request each,
starting at index `k`) and append the non-`None` results. -/
def scrapeAll (w : Web) : Nat → List String → Except PyError (List ProductRecord) × List String
  | _, [] => (.ok [], [])
  | k, link :: rest =>
    match (scrape_product w k link).1 with
    | .error e => (.error e, [link])
    | .ok none =>
      let r := scrapeAll w (k + 1) rest
      (r.1, link :: r.2)
    | .ok (some p) =>
      let r := scrapeAll w (k + 1) rest
      (r.1.map (p :: ·), link :: r.2)

/-- `scrape_category` (main.py 50-89): fetch page 1 (request index `k`) for
the page count — returning `[]` when that fetch fails — then run the
listing loop from page 1 (fetching page 1 a second time) and extract every
collected link.  Returns the record list (or the uncaught exception) and
the fetched URLs in request order. -/
def scrape_category (w : Web) (k : Nat) (category_url : String) :
    Except PyError (List ProductRecord) × List String :=
  let firstUrl := listingPageUrl category_url 1
  match w k firstUrl with
  | none => (.ok [], [firstUrl])
  | some soup =>
    match get_total_pages soup with
    | .error e => (.error e, [firstUrl])
    | .ok total_pages =>
      let c := collectLinks w (listingPageUrl category_url) (k + 1) 1 total_pages.toNat
      match c.1 with
      | .error e => (.error e, firstUrl :: c.2)
      | .ok links =>
        let s := scrapeAll w (k + 1 + c.2.length) links
        (s.1, firstUrl :: (c.2 ++ s.2))

/-- `search_products` (main.py 91-132): probe the page-1 search URL with
`is_valid_link` (request index `k`); when invalid the function falls off
its body, i.e. returns Python `None` (modelled `Except.ok none`).  When
valid it re-fetches the same URL for the page count — returning `some []`
when that fetch fails — then runs the listing loop and extraction exactly
as `scrape_category` does. -/
def search_products (w : Web) (k : Nat) (q : String) :
    Except PyError (Option (List ProductRecord)) × List String :=
  let search_url := searchListingUrl q 1
  if is_valid_link w k search_url then
    match w (k + 1) search_url with
    | none => (.ok (some []), [search_url, search_url])
    | some soup =>
      match get_total_pages soup with
      | .error e => (.error e, [search_url, search_url])
      | .ok total_pages =>
        let c := collectLinks w (searchListingUrl q) (k + 2) 1 total_pages.toNat
        match c.1 with
        | .error e => (.error e, search_url :: search_url :: c.2)
        | .ok links =>
          let s := scrapeAll w (k + 2 + c.2.length) links
          (s.1.map some, search_url :: search_url :: (c.2 ++ s.2))
  else (.ok none, [search_url])

/-- `save_to_csv` (main.py 172-176) for a non-empty record list:
`pd.DataFrame(products).to_csv(filename, index=False)` writes a header row
made of the records' dict keys (all records share the same five keys, in
insertion order) followed by one row of values per record. -/
def save_to_csv (products : List ProductRecord) : List (List String) :=
  ["Title", "Part Number", "Price", "Desciption", "Image"]
    :: products.map (fun r => (recordPairs r).map (·.2))

/-- Left-to-right non-overlapping replacement of `old` by `new`, as Python
`str.replace` performs it; scanning resumes after the replaced occurrence
(`fuel`-bounded; called with `fuel = s.length` and non-empty `old`, enough
since each step consumes at least one character). -/
def pyReplaceAux (old new : List Char) : Nat → List Char → List Char
  | _, [] => []
  | 0, s => s
  | fuel + 1, c :: cs =>
    if old.isPrefixOf (c :: cs) then
      new ++ pyReplaceAux old new fuel ((c :: cs).drop old.length)
    else
      c :: pyReplaceAux old new fuel cs

/-- Model of Python `str.replace(old, new)` for the non-empty `old`s `main`
uses (`"https://"`, `"www."`). -/
def pyReplace (s old new : String) : String :=
  match old.data with
  | [] => s
  | _ => ⟨pyReplaceAux old.data new.data s.data.length s.data⟩

/-- Splitting on a non-empty separator, as Python `str.split(sep)` performs
it; `acc` holds the current (reversed) field (`fuel`-bounded; called with
`fuel = s.length`). -/
def pySplitAux (sep : List Char) : Nat → List Char → List Char → List (List Char)
  | _, acc, [] => [acc.reverse]
  | 0, acc, s => [acc.reverse ++ s]
  | fuel + 1, acc, c :: cs =>
    if sep.isPrefixOf (c :: cs) then
      acc.reverse :: pySplitAux sep fuel [] ((c :: cs).drop sep.length)
    else
      pySplitAux sep fuel (c :: acc) cs

/-- Model of Python `str.split(sep)` for the non-empty separator `"/"`
`main` uses (so `"".split(sep) = [""]` and fields may be empty). -/
def pySplit (s sep : String) : List String :=
  (pySplitAux sep.data s.data.length [] s.data).map List.asString

/-- The category-name derivation of `main` (main.py 187-193): strip
`"https://"` and `"www."`, split on `"/"`, and take part index 2 —
an IndexError when the split yields fewer than three parts. -/
def derive_category (category_url : String) : Except PyError String :=
  let url_without_protocol :=
    pyReplace (pyReplace category_url "https://" "") "www." ""
  let url_parts := pySplit url_without_protocol "/"
  match url_parts.get? 2 with
  | some c => .ok c
  | none => .error .indexError

/-- Python truthiness of the value `main` (main.py 198, 203) tests with
`if products:` — `None` and the empty list are falsy. -/
def pyTruthy (v : Option (List ProductRecord)) : Bool :=
  match v with
  | none => false
  | some l => !l.isEmpty

/-- The Python value kept from one `scrape_product` call by the extraction
loop: the record when the call returned one, nothing when it returned
`None` (the loop then appends nothing). -/
def okJoin : Except PyError (Option ProductRecord) → Option ProductRecord
  | .ok (some p) => some p
  | .ok none => none
  | .error _ => none

/-! ### Concrete pages and webs used as test inputs -/

/-- A page on which every marker the scraper reads is absent. -/
def emptySoup : Soup :=
  { productBoxes := [], pagingDisplay := none, productTitle := none,
    skuSpan := none, priceMeta := none, productDescription := none,
    thumbnailImgs := [] }

/-- A listing page reporting 1 total page whose two product boxes carry the
same detail link `"P"`. -/
def dupListingSoup : Soup :=
  { emptySoup with
    productBoxes := [⟨some ⟨some "P"⟩⟩, ⟨some ⟨some "P"⟩⟩],
    pagingDisplay := some ⟨some "1"⟩ }

/-- A product detail page carrying only a title. -/
def titleOnlySoup : Soup :=
  { emptySoup with productTitle := some "T" }

/-- A product detail page with all five markers present (the second
thumbnail image carries the `srcset`). -/
def fullProductSoup : Soup :=
  { emptySoup with
    productTitle := some "T", skuSpan := some "S",
    priceMeta := some (some "9.99"), productDescription := some "D",
    thumbnailImgs := [none, some "I"] }

/-- A product detail page whose `meta[itemprop=price]` tag is present but
carries no `content` attribute. -/
def priceCrashSoup : Soup :=
  { emptySoup with productTitle := some "T", priceMeta := some none }

/-- A listing page with one product box (used for validity probes). -/
def oneBoxSoup : Soup :=
  { emptySoup with productBoxes := [⟨some ⟨some "x"⟩⟩] }

/-- A listing page reporting 3 total pages with one product box linking to
`"P1"`. -/
def pages3Soup : Soup :=
  { emptySoup with
    productBoxes := [⟨some ⟨some "P1"⟩⟩],
    pagingDisplay := some ⟨some "3"⟩ }

/-- A listing page reporting 1 total page with two boxes linking to `"A"`
and `"B"`. -/
def twoLinkSoup : Soup :=
  { emptySoup with
    productBoxes := [⟨some ⟨some "A"⟩⟩, ⟨some ⟨some "B"⟩⟩],
    pagingDisplay := some ⟨some "1"⟩ }

/-- A web on which every request fails. -/
def webFailAll : Web := fun _ _ => none

/-- A web serving the category `"c"`: one listing page with a duplicated
product link, plus the product page `"P"`. -/
def webDupLink : Web := fun _ url =>
  if url = listingPageUrl "c" 1 then some dupListingSoup
  else if url = "P" then some titleOnlySoup
  else none

/-- A web serving both the category `"c"` and the search query `"q"` with
the same one-page duplicated-link listing, plus the product page `"P"`. -/
def webC1Both : Web := fun _ url =>
  if url = listingPageUrl "c" 1 then some dupListingSoup
  else if url = searchListingUrl "q" 1 then some dupListingSoup
  else if url = "P" then some titleOnlySoup
  else none

/-- A web serving only the product page `"p"`, whose price meta tag lacks
its `content` attribute. -/
def webPriceCrash : Web := fun _ url =>
  if url = "p" then some priceCrashSoup
  else none

/-- A web that answers only the very first request (the validity probe for
search query `"q"`) and fails every later one. -/
def webProbeOnly : Web := fun i url =>
  if i = 0 then
    if url = searchListingUrl "q" 1 then some oneBoxSoup else none
  else none

/-- A web serving category `"c"` with a reported 3 pages whose page-2 fetch
fails, plus the product page `"P1"`. -/
def webPage2Fails : Web := fun _ url =>
  if url = listingPageUrl "c" 1 then some pages3Soup
  else if url = "P1" then some titleOnlySoup
  else none

/-- A web serving category `"c"` with one listing page linking to `"A"`
(whose fetch fails) and `"B"` (a fully populated product page). -/
def webSkipA : Web := fun _ url =>
  if url = listingPageUrl "c" 1 then some twoLinkSoup
  else if url = "B" then some fullProductSoup
  else none

/-! ### Helper lemmas -/

/-- The listing loop fetches the pages `page, page + 1, ...` in order, at
most `fuel` of them. -/
theorem collectLinks_trace_spec (w : Web) (mkUrl : Int → String) :
    ∀ (fuel k : Nat) (page : Int),
      ∃ m ≤ fuel, (collectLinks w mkUrl k page fuel).2
        = (List.range m).map (fun i : Nat => mkUrl (page + (i : Int))) := by
  intro fuel
  induction fuel with
  | zero =>
    intro k page
    exact ⟨0, Nat.le_refl 0, rfl⟩
  | succ n ih =>
    intro k page
    cases hw : w k (mkUrl page) with
    | none =>
      refine ⟨1, Nat.succ_le_succ (Nat.zero_le n), ?_⟩
      simp [collectLinks, hw, List.range_succ]
    | some soup =>
      cases hb : soup.productBoxes.isEmpty with
      | true =>
        refine ⟨1, Nat.succ_le_succ (Nat.zero_le n), ?_⟩
        simp [collectLinks, hw, hb, List.range_succ]
      | false =>
        cases he : extractBoxLinks soup.productBoxes with
        | error e =>
          refine ⟨1, Nat.succ_le_succ (Nat.zero_le n), ?_⟩
          simp [collectLinks, hw, hb, he, List.range_succ]
        | ok links =>
          obtain ⟨m, hm, htr⟩ := ih (k + 1) (page + 1)
          refine ⟨m + 1, Nat.succ_le_succ hm, ?_⟩
          simp only [collectLinks, hw, hb, Bool.false_eq_true, if_false, he, htr]
          rw [List.range_succ_eq_map, List.map_cons, List.map_map]
          refine congrArg₂ List.cons (congrArg mkUrl (by simp)) ?_
          refine List.map_congr_left fun i _ => congrArg mkUrl ?_
          push_cast
          ring

/-- When the extraction loop does not raise, it fetches exactly the links
it was given, in order. -/
theorem scrapeAll_ok_trace (w : Web) :
    ∀ (links : List String) (k : Nat) (r : List ProductRecord),
      (scrapeAll w k links).1 = .ok r → (scrapeAll w k links).2 = links := by
  intro links
  induction links with
  | nil => intro k r _; rfl
  | cons l rest ih =>
    intro k r h
    cases hp : (scrape_product w k l).1 with
    | error e =>
      simp only [scrapeAll, hp] at h
      exact Except.noConfusion h
    | ok o =>
      cases o with
      | none =>
        simp only [scrapeAll, hp] at h ⊢
        exact congrArg (l :: ·) (ih _ _ h)
      | some p =>
        simp only [scrapeAll, hp] at h ⊢
        cases hr : (scrapeAll w (k + 1) rest).1 with
        | error e => rw [hr] at h; simp [Except.map] at h
        | ok r2 => exact congrArg (l :: ·) (ih _ _ hr)

/-- When the extraction loop does not raise, its result is the in-order
`filterMap` of the per-link extraction over the links, each paired with its
request index. -/
theorem scrapeAll_ok_result (w : Web) :
    ∀ (links : List String) (k : Nat) (prods : List ProductRecord),
      (scrapeAll w k links).1 = .ok prods →
      prods = (List.enumFrom k links).filterMap
        (fun p => okJoin (scrape_product w p.1 p.2).1) := by
  intro links
  induction links with
  | nil =>
    intro k prods h
    simp only [scrapeAll] at h
    cases h
    rfl
  | cons l rest ih =>
    intro k prods h
    have henum : List.enumFrom k (l :: rest) = (k, l) :: List.enumFrom (k + 1) rest := rfl
    rw [henum, List.filterMap_cons]
    cases hp : (scrape_product w k l).1 with
    | error e =>
      simp only [scrapeAll, hp] at h
      exact Except.noConfusion h
    | ok o =>
      cases o with
      | none =>
        simp only [scrapeAll, hp] at h
        simp only [hp, okJoin]
        exact ih _ _ h
      | some p =>
        simp only [scrapeAll, hp] at h
        cases hr : (scrapeAll w (k + 1) rest).1 with
        | error e => rw [hr] at h; simp [Except.map] at h
        | ok r2 =>
          rw [hr] at h
          simp only [Except.map] at h
          cases h
          simp only [hp, okJoin]
          exact congrArg (p :: ·) (ih _ _ hr)

/-- The listing loop collects exactly the links of pages `1 .. j` and stops
with page `j + 1` (fetching it) when that page's fetch fails or it has no
product boxes, provided every earlier page succeeded with a non-empty box
list; no error is raised. -/
theorem collectLinks_stops_early (w : Web) (mkUrl : Int → String) :
    ∀ (j : Nat) (ls : Nat → List String) (fuel k : Nat) (page : Int),
      j < fuel →
      (∀ i < j, ∃ s, w (k + i) (mkUrl (page + (i : Int))) = some s ∧
        s.productBoxes ≠ [] ∧ extractBoxLinks s.productBoxes = .ok (ls i)) →
      (w (k + j) (mkUrl (page + (j : Int))) = none ∨
        ∃ s, w (k + j) (mkUrl (page + (j : Int))) = some s ∧ s.productBoxes = []) →
      collectLinks w mkUrl k page fuel
        = (.ok ((List.range j).flatMap ls),
           (List.range (j + 1)).map (fun i : Nat => mkUrl (page + (i : Int)))) := by
  intro j
  induction j with
  | zero =>
    intro ls fuel k page hfuel hgood hfail
    obtain ⟨f, rfl⟩ : ∃ f, fuel = f + 1 := ⟨fuel - 1, by omega⟩
    rcases hfail with hnone | ⟨s, hs, hboxes⟩
    · simp only [Nat.add_zero, Nat.cast_zero, add_zero] at hnone
      simp [collectLinks, hnone, List.range_succ]
    · simp only [Nat.add_zero, Nat.cast_zero, add_zero] at hs
      have hemp : s.productBoxes.isEmpty = true := by simp [hboxes]
      simp [collectLinks, hs, hemp, List.range_succ]
  | succ j ih =>
    intro ls fuel k page hfuel hgood hfail
    obtain ⟨f, rfl⟩ : ∃ f, fuel = f + 1 := ⟨fuel - 1, by omega⟩
    obtain ⟨s0, hs0, hne0, hex0⟩ := hgood 0 (Nat.succ_pos j)
    simp only [Nat.add_zero, Nat.cast_zero, add_zero] at hs0
    have hne0' : s0.productBoxes.isEmpty = false := by
      cases hcl : s0.productBoxes
      · exact absurd hcl hne0
      · rfl
    have hgood' : ∀ i < j, ∃ s, w (k + 1 + i) (mkUrl (page + 1 + (i : Int))) = some s ∧
        s.productBoxes ≠ [] ∧ extractBoxLinks s.productBoxes = .ok (ls (i + 1)) := by
      intro i hi
      obtain ⟨s, hs, h2, h3⟩ := hgood (i + 1) (by omega)
      have harith : k + (i + 1) = k + 1 + i := by omega
      have harith2 : page + ((i + 1 : Nat) : Int) = page + 1 + (i : Int) := by
        push_cast; ring
      rw [harith, harith2] at hs
      exact ⟨s, hs, h2, h3⟩
    have hfail' : w (k + 1 + j) (mkUrl (page + 1 + (j : Int))) = none ∨
        ∃ s, w (k + 1 + j) (mkUrl (page + 1 + (j : Int))) = some s ∧
          s.productBoxes = [] := by
      have harith : k + (j + 1) = k + 1 + j := by omega
      have harith2 : page + ((j + 1 : Nat) : Int) = page + 1 + (j : Int) := by
        push_cast; ring
      rcases hfail with h | ⟨s, hs, hb⟩
      · left; rw [harith, harith2] at h; exact h
      · right; rw [harith, harith2] at hs; exact ⟨s, hs, hb⟩
    have hrec := ih (fun i => ls (i + 1)) f (k + 1) (page + 1) (by omega) hgood' hfail'
    simp only [collectLinks, hs0, hne0', Bool.false_eq_true, if_false, hex0, hrec]
    refine congrArg₂ Prod.mk ?_ ?_
    · simp only [Except.map]
      rw [List.range_succ_eq_map, List.flatMap_cons, List.flatMap_map]
    · conv_rhs => rw [List.range_succ_eq_map, List.map_cons, List.map_map]
      refine congrArg₂ List.cons (congrArg mkUrl (by simp)) ?_
      refine List.map_congr_left fun i _ => congrArg mkUrl ?_
      push_cast
      ring

/-! ### The claims -/

/-- C1, counterexample: on a web whose category listing reports exactly 1
total page and whose single listing page carries the same product link
twice, `scrape_category` issues 2 listing-page fetches (page 1 is fetched
once for the page count and once by the loop), not at most `N = 1`, and it
fetches the single distinct collected link `"P"` twice, not once. -/
theorem scrape_category_fetch_counts_cex :
    get_total_pages dupListingSoup = .ok 1 ∧
    (scrape_category webDupLink 0 "c").2
      = [listingPageUrl "c" 1, listingPageUrl "c" 1, "P", "P"] ∧
    ¬ ((scrape_category webDupLink 0 "c").2.countP
        (fun u => u == listingPageUrl "c" 1) ≤ 1) ∧
    extractBoxLinks dupListingSoup.productBoxes = .ok ["P", "P"] ∧
    (scrape_category webDupLink 0 "c").2.countP (fun u => u == "P") ≠ 1 := by
  refine ⟨rfl, rfl, ?_, rfl, ?_⟩
  · have h : (scrape_category webDupLink 0 "c").2.countP
        (fun u => u == listingPageUrl "c" 1) = 2 := rfl
    omega
  · have h : (scrape_category webDupLink 0 "c").2.countP (fun u => u == "P") = 2 := rfl
    omega

/-- C1, amended: on every listing scrape whose first page reports
total-page count `N` and on which neither link collection nor extraction
raises, the Listing Walker's fetch trace is exactly: the page-count
fetch(es) of the page-1 URL — one for `scrape_category`, two for
`search_products` (validity probe plus page-count re-fetch) — then the
loop's fetches of pages `1, 2, ...` (at most `N` of them), then exactly one
product-page fetch per collected link occurrence, in collection order.  So
`scrape_category` issues at most `N + 1` and `search_products` at most
`N + 2` listing-page fetches. -/
theorem scrape_category_fetch_counts (w : Web) (k : Nat) (curl q : String)
    (soupC soupS : Soup) (Nc Ns : Int) (linksC trC linksS trS : List String)
    (prodsC prodsS : List ProductRecord) :
    (w k (listingPageUrl curl 1) = some soupC →
      get_total_pages soupC = .ok Nc →
      collectLinks w (listingPageUrl curl) (k + 1) 1 Nc.toNat = (.ok linksC, trC) →
      (scrapeAll w (k + 1 + trC.length) linksC).1 = .ok prodsC →
      ∃ m ≤ Nc.toNat,
        trC = (List.range m).map (fun i : Nat => listingPageUrl curl (1 + (i : Int))) ∧
        (scrape_category w k curl).2
          = listingPageUrl curl 1 :: (trC ++ linksC)) ∧
    (is_valid_link w k (searchListingUrl q 1) = true →
      w (k + 1) (searchListingUrl q 1) = some soupS →
      get_total_pages soupS = .ok Ns →
      collectLinks w (searchListingUrl q) (k + 2) 1 Ns.toNat = (.ok linksS, trS) →
      (scrapeAll w (k + 2 + trS.length) linksS).1 = .ok prodsS →
      ∃ m ≤ Ns.toNat,
        trS = (List.range m).map (fun i : Nat => searchListingUrl q (1 + (i : Int))) ∧
        (search_products w k q).2
          = searchListingUrl q 1 :: searchListingUrl q 1 :: (trS ++ linksS)) := by
  constructor
  · intro h1 h2 h3 h4
    obtain ⟨m, hm, htr⟩ := collectLinks_trace_spec w (listingPageUrl curl) Nc.toNat (k + 1) 1
    rw [h3] at htr
    refine ⟨m, hm, htr, ?_⟩
    simp only [scrape_category, h1, h2, h3]
    rw [scrapeAll_ok_trace w linksC (k + 1 + trC.length) prodsC h4]
  · intro hv h1 h2 h3 h4
    obtain ⟨m, hm, htr⟩ := collectLinks_trace_spec w (searchListingUrl q) Ns.toNat (k + 2) 1
    rw [h3] at htr
    refine ⟨m, hm, htr, ?_⟩
    simp only [search_products, hv, h1, h2, h3, if_true]
    rw [scrapeAll_ok_trace w linksS (k + 2 + trS.length) prodsS h4]

/-- Witness for C1's amended theorem: the duplicated-link listing served
both as category `"c"` and as search query `"q"`. -/
theorem scrape_category_fetch_counts_witness :
    (∃ m ≤ (1 : Int).toNat,
      [listingPageUrl "c" 1]
        = (List.range m).map (fun i : Nat => listingPageUrl "c" (1 + (i : Int))) ∧
      (scrape_category webC1Both 0 "c").2
        = listingPageUrl "c" 1 :: ([listingPageUrl "c" 1] ++ ["P", "P"])) ∧
    (∃ m ≤ (1 : Int).toNat,
      [searchListingUrl "q" 1]
        = (List.range m).map (fun i : Nat => searchListingUrl "q" (1 + (i : Int))) ∧
      (search_products webC1Both 0 "q").2
        = searchListingUrl "q" 1 :: searchListingUrl "q" 1
            :: ([searchListingUrl "q" 1] ++ ["P", "P"])) :=
  ⟨(scrape_category_fetch_counts webC1Both 0 "c" "q" dupListingSoup dupListingSoup
      1 1 ["P", "P"] [listingPageUrl "c" 1] ["P", "P"] [searchListingUrl "q" 1]
      [⟨"T", "", "", "", ""⟩, ⟨"T", "", "", "", ""⟩]
      [⟨"T", "", "", "", ""⟩, ⟨"T", "", "", "", ""⟩]).1 rfl rfl rfl rfl,
   (scrape_category_fetch_counts webC1Both 0 "c" "q" dupListingSoup dupListingSoup
      1 1 ["P", "P"] [listingPageUrl "c" 1] ["P", "P"] [searchListingUrl "q" 1]
      [⟨"T", "", "", "", ""⟩, ⟨"T", "", "", "", ""⟩]
      [⟨"T", "", "", "", ""⟩, ⟨"T", "", "", "", ""⟩]).2 rfl rfl rfl rfl rfl⟩

/-- C2, counterexample: a product page whose fetch succeeds but whose
`meta[itemprop=price]` tag has no `content` attribute makes `scrape_product`
raise KeyError instead of returning a record. -/
theorem scrape_product_price_attr_cex :
    webPriceCrash 0 "p" = some priceCrashSoup ∧
    (scrape_product webPriceCrash 0 "p").1 = .error .keyError :=
  ⟨rfl, rfl⟩

/-- C2, amended: for every successfully fetched product page on which any
present price meta tag carries its `content` attribute, `scrape_product`
signals no error and returns a (non-`None`) record, and each of the five
fields independently defaults to the empty string when its marker is
absent. -/
theorem scrape_product_defaults (w : Web) (k : Nat) (url : String) (soup : Soup)
    (h : w k url = some soup) (hp : soup.priceMeta ≠ some none) :
    ∃ r, (scrape_product w k url).1 = .ok (some r) ∧
      (soup.productTitle = none → r.title = "") ∧
      (soup.skuSpan = none → r.partNumber = "") ∧
      (soup.priceMeta = none → r.price = "") ∧
      (soup.productDescription = none → r.desciption = "") ∧
      (soup.thumbnailImgs.filterMap id = [] → r.image = "") := by
  cases hpm : soup.priceMeta with
  | none =>
    refine ⟨{ title := soup.productTitle.getD "", partNumber := soup.skuSpan.getD "",
              price := "", desciption := soup.productDescription.getD "",
              image := (soup.thumbnailImgs.filterMap id).headD "" },
            ?_, fun ht => by simp [ht], fun hs => by simp [hs], fun _ => rfl,
            fun hd => by simp [hd], fun hi => by simp [hi]⟩
    simp [scrape_product, h, hpm]
  | some c =>
    cases c with
    | none => exact absurd hpm hp
    | some cval =>
      refine ⟨{ title := soup.productTitle.getD "", partNumber := soup.skuSpan.getD "",
                price := cval, desciption := soup.productDescription.getD "",
                image := (soup.thumbnailImgs.filterMap id).headD "" },
              ?_, fun ht => by simp [ht], fun hs => by simp [hs],
              fun hpn => Option.noConfusion hpn,
              fun hd => by simp [hd], fun hi => by simp [hi]⟩
      simp [scrape_product, h, hpm]

/-- Witness for C2's amended theorem at a page carrying only a title. -/
theorem scrape_product_defaults_witness :
    ∃ r, (scrape_product webDupLink 0 "P").1 = .ok (some r) ∧
      (titleOnlySoup.productTitle = none → r.title = "") ∧
      (titleOnlySoup.skuSpan = none → r.partNumber = "") ∧
      (titleOnlySoup.priceMeta = none → r.price = "") ∧
      (titleOnlySoup.productDescription = none → r.desciption = "") ∧
      (titleOnlySoup.thumbnailImgs.filterMap id = [] → r.image = "") :=
  scrape_product_defaults webDupLink 0 "P" titleOnlySoup rfl (by decide)

/-- C3: the output header row does match the record dict keys in order, but
the fourth column is the source's misspelled `"Desciption"`, not the
`"Description"` the spec names; the record shown is one the extractor
actually produces. -/
theorem save_to_csv_header_typo :
    (scrape_product webSkipA 0 "B").1 = .ok (some ⟨"T", "S", "9.99", "D", "I"⟩) ∧
    (save_to_csv [⟨"T", "S", "9.99", "D", "I"⟩]).head?
      = some ((recordPairs ⟨"T", "S", "9.99", "D", "I"⟩).map (·.1)) ∧
    (recordPairs ⟨"T", "S", "9.99", "D", "I"⟩).map (·.1)
      = ["Title", "Part Number", "Price", "Desciption", "Image"] ∧
    "Description" ∉ ["Title", "Part Number", "Price", "Desciption", "Image"] :=
  ⟨rfl, rfl, rfl, by decide⟩

/-- C4: `get_total_pages` returns the embedded total-page number (the
integer parse of the pagination marker's `strong` text) when the marker is
present, and returns 1 when the marker is absent. -/
theorem get_total_pages_spec (soup : Soup) (n : Int) :
    (soup.pagingDisplay = none → get_total_pages soup = .ok 1) ∧
    (∀ pd t, soup.pagingDisplay = some pd → pd.strongText = some t →
      pyInt t = .ok n → get_total_pages soup = .ok n) := by
  constructor
  · intro h
    simp [get_total_pages, h]
  · intro pd t hpd ht hparse
    simp [get_total_pages, hpd, ht, hparse]

/-- Witness for C4 at a page without the marker and at one embedding 3. -/
theorem get_total_pages_spec_witness :
    get_total_pages emptySoup = .ok 1 ∧
    get_total_pages { emptySoup with pagingDisplay := some ⟨some "3"⟩ } = .ok 3 :=
  ⟨(get_total_pages_spec emptySoup 1).1 rfl,
   (get_total_pages_spec { emptySoup with pagingDisplay := some ⟨some "3"⟩ } 3).2
     ⟨some "3"⟩ "3" rfl rfl rfl⟩

/-- C5: `is_valid_link` returns `false` exactly when the fetch fails or the
fetched page parses to zero product boxes, and `true` otherwise; a fetch
failure is not distinguished from an empty page. -/
theorem is_valid_link_spec (w : Web) (k : Nat) (url : String) :
    is_valid_link w k url = false ↔
      (w k url = none ∨ ∃ s, w k url = some s ∧ s.productBoxes.length = 0) := by
  cases hw : w k url with
  | none => simp [is_valid_link, hw]
  | some s =>
    simp [is_valid_link, hw]

/-- Witness for C5 on the all-failing web. -/
theorem is_valid_link_spec_witness :
    is_valid_link webFailAll 0 "u" = false :=
  (is_valid_link_spec webFailAll 0 "u").mpr (Or.inl rfl)

/-- C6: when the first listing-page fetch fails, `scrape_category` returns
the empty record list having fetched only that one listing URL (so no
product-page fetch occurs), and `search_products` — after a successful
validity probe — likewise returns the empty list having fetched only the
two copies of the page-1 search URL. -/
theorem first_fetch_fail_empty (w : Web) (k : Nat) (curl q : String) :
    (w k (listingPageUrl curl 1) = none →
      scrape_category w k curl = (.ok [], [listingPageUrl curl 1])) ∧
    (is_valid_link w k (searchListingUrl q 1) = true →
      w (k + 1) (searchListingUrl q 1) = none →
      search_products w k q
        = (.ok (some []), [searchListingUrl q 1, searchListingUrl q 1])) := by
  constructor
  · intro h
    simp [scrape_category, h]
  · intro hv h
    simp [search_products, hv, h]

/-- Witness for C6: an all-failing web, and a web that answers only the
validity probe. -/
theorem first_fetch_fail_empty_witness :
    scrape_category webFailAll 0 "c" = (.ok [], [listingPageUrl "c" 1]) ∧
    search_products webProbeOnly 0 "q"
      = (.ok (some []), [searchListingUrl "q" 1, searchListingUrl "q" 1]) :=
  ⟨(first_fetch_fail_empty webFailAll 0 "c" "q").1 rfl,
   (first_fetch_fail_empty webProbeOnly 0 "c" "q").2 rfl rfl⟩

/-- C7: when pages `1 .. j` each yield a non-empty box list and page
`j + 1 ≤ N` fails (fetch failure or zero boxes), listing iteration halts
without error after fetching pages `1 .. j + 1`, and the links collected
from the earlier pages are still processed into the returned records. -/
theorem early_stop_processes_collected (w : Web) (k : Nat) (curl : String)
    (soup : Soup) (N : Int) (j : Nat) (ls : Nat → List String)
    (prods : List ProductRecord)
    (h1 : w k (listingPageUrl curl 1) = some soup)
    (h2 : get_total_pages soup = .ok N)
    (hj : j < N.toNat)
    (hgood : ∀ i < j, ∃ s,
      w (k + 1 + i) (listingPageUrl curl (1 + (i : Int))) = some s ∧
      s.productBoxes ≠ [] ∧ extractBoxLinks s.productBoxes = .ok (ls i))
    (hfail : w (k + 1 + j) (listingPageUrl curl (1 + (j : Int))) = none ∨
      ∃ s, w (k + 1 + j) (listingPageUrl curl (1 + (j : Int))) = some s ∧
        s.productBoxes = [])
    (h5 : (scrapeAll w (k + 1 + (j + 1)) ((List.range j).flatMap ls)).1
        = .ok prods) :
    (scrape_category w k curl).1 = .ok prods ∧
    (scrape_category w k curl).2
      = listingPageUrl curl 1 ::
        ((List.range (j + 1)).map (fun i : Nat => listingPageUrl curl (1 + (i : Int)))
          ++ (List.range j).flatMap ls) := by
  have hcl := collectLinks_stops_early w (listingPageUrl curl) j ls N.toNat (k + 1) 1
    hj hgood hfail
  have hlen : ((List.range (j + 1)).map
      (fun i : Nat => listingPageUrl curl (1 + (i : Int)))).length = j + 1 := by
    simp
  constructor
  · simp only [scrape_category, h1, h2, hcl, hlen]
    exact h5
  · simp only [scrape_category, h1, h2, hcl, hlen]
    rw [scrapeAll_ok_trace w ((List.range j).flatMap ls) (k + 1 + (j + 1)) prods h5]

/-- Witness for C7: 3 reported pages, page 2's fetch fails, page 1's link
is still processed. -/
theorem early_stop_processes_collected_witness :
    (scrape_category webPage2Fails 0 "c").1 = .ok [⟨"T", "", "", "", ""⟩] ∧
    (scrape_category webPage2Fails 0 "c").2
      = listingPageUrl "c" 1 ::
        ((List.range 2).map (fun i : Nat => listingPageUrl "c" (1 + (i : Int)))
          ++ (List.range 1).flatMap (fun _ => ["P1"])) :=
  early_stop_processes_collected webPage2Fails 0 "c" pages3Soup 3 1
    (fun _ => ["P1"]) [⟨"T", "", "", "", ""⟩] rfl rfl (by decide)
    (by
      intro i hi
      have hz : i = 0 := Nat.lt_one_iff.mp hi
      subst hz
      exact ⟨pages3Soup, rfl, by decide, rfl⟩)
    (Or.inl rfl) rfl

/-- C8: the records returned by `scrape_category` are the in-order
`filterMap` of per-link extraction over the collected links (page order,
then in-page order): every link whose extraction returns no result is
skipped without an entry, and the rest appear in link-collection order. -/
theorem records_preserve_link_order (w : Web) (k : Nat) (curl : String)
    (soup : Soup) (N : Int) (links tr : List String) (prods : List ProductRecord)
    (h1 : w k (listingPageUrl curl 1) = some soup)
    (h2 : get_total_pages soup = .ok N)
    (h3 : collectLinks w (listingPageUrl curl) (k + 1) 1 N.toNat = (.ok links, tr))
    (h4 : (scrapeAll w (k + 1 + tr.length) links).1 = .ok prods) :
    (scrape_category w k curl).1 = .ok prods ∧
    prods = (List.enumFrom (k + 1 + tr.length) links).filterMap
      (fun p => okJoin (scrape_product w p.1 p.2).1) := by
  constructor
  · simp only [scrape_category, h1, h2, h3]
    exact h4
  · exact scrapeAll_ok_result w links (k + 1 + tr.length) prods h4

/-- Witness for C8: links `"A"` (extraction returns nothing, skipped) and
`"B"` (a full record), in order. -/
theorem records_preserve_link_order_witness :
    (scrape_category webSkipA 0 "c").1 = .ok [⟨"T", "S", "9.99", "D", "I"⟩] ∧
    [(⟨"T", "S", "9.99", "D", "I"⟩ : ProductRecord)]
      = (List.enumFrom 2 ["A", "B"]).filterMap
          (fun p => okJoin (scrape_product webSkipA p.1 p.2).1) :=
  records_preserve_link_order webSkipA 0 "c" twoLinkSoup 1 ["A", "B"]
    [listingPageUrl "c" 1] [⟨"T", "S", "9.99", "D", "I"⟩] rfl rfl rfl rfl

/-- C9: for the category URL `https://www.scooter-center.com`, whose path
has fewer than three segments after stripping the protocol and `www.`, the
Driver's category-name derivation raises IndexError (an out-of-range
access), not a designed error path. -/
theorem derive_category_short_url_crash :
    (pySplit (pyReplace (pyReplace "https://www.scooter-center.com"
        "https://" "") "www." "") "/").length < 3 ∧
    derive_category "https://www.scooter-center.com" = .error .indexError := by
  refine ⟨?_, rfl⟩
  have h : (pySplit (pyReplace (pyReplace "https://www.scooter-center.com"
      "https://" "") "www." "") "/").length = 1 := rfl
  omega

/-- C10: when the validity probe fails in search mode, `search_products`
returns Python `None` (not an empty list) having fetched only the probe
URL, while `scrape_category` returns the empty list when its first fetch
fails; the Driver's `if products:` truthiness test is false for both, so no
file is written in either case. -/
theorem search_invalid_returns_none (w : Web) (k k2 : Nat) (q curl : String) :
    (is_valid_link w k (searchListingUrl q 1) = false →
      search_products w k q = (.ok none, [searchListingUrl q 1]) ∧
      pyTruthy none = false) ∧
    (w k2 (listingPageUrl curl 1) = none →
      (scrape_category w k2 curl).1 = .ok [] ∧ pyTruthy (some []) = false) := by
  constructor
  · intro h
    exact ⟨by simp [search_products, h], rfl⟩
  · intro h
    exact ⟨by simp [scrape_category, h], rfl⟩

/-- Witness for C10 on the all-failing web. -/
theorem search_invalid_returns_none_witness :
    (search_products webFailAll 0 "q" = (.ok none, [searchListingUrl "q" 1]) ∧
      pyTruthy none = false) ∧
    ((scrape_category webFailAll 1 "c").1 = .ok [] ∧ pyTruthy (some []) = false) :=
  ⟨(search_invalid_returns_none webFailAll 0 1 "q" "c").1 rfl,
   (search_invalid_returns_none webFailAll 0 1 "q" "c").2 rfl⟩

end ScooterScraper
